import Mathlib

/-!
Verification of the chat request handler of the minimal Gemini chatbot backend
(`flask_backend/app/routes/chat.py`).

The embedding models Python strings as Lean `String`s (sequences of code
points), with the Python operations used by the handler (`strip`, `lower`,
slicing, `join`, truthiness) defined over `String.data`.  The external
provider (`google.generativeai`) is modelled as an oracle: a `Provider`
records whether `genai.configure` raises and, for each model name, the
outcome of constructing the model and calling `generate_content`.  The
handler returns the trace of provider calls together with the HTTP-level
result, so that claims about which calls happen can be stated.
-/

namespace GeminiChat

/-- Python `str.strip()` on the whitespace claims need: drop leading and
trailing whitespace characters. -/
def pyStrip (s : String) : String :=
  ⟨((s.data.dropWhile Char.isWhitespace).reverse.dropWhile Char.isWhitespace).reverse⟩

/-- Python `str.lower()`. -/
def pyLower (s : String) : String :=
  ⟨s.data.map Char.toLower⟩

/-- Python slicing `s[:n]`. -/
def pyTake (s : String) (n : Nat) : String :=
  ⟨s.data.take n⟩

/-- Python truthiness of a string: `bool(s)` is true iff `s` is non-empty. -/
def pyTruthy (s : String) : Bool :=
  !s.data.isEmpty

/-- Python truthiness of an optional string (`None` is falsy). -/
def truthyOpt : Option String → Bool
  | none => false
  | some s => pyTruthy s

/-- Python `" ".join(l)`. -/
def pyJoinSpace : List String → String
  | [] => ""
  | [s] => s
  | s :: rest => s ++ " " ++ pyJoinSpace rest

/-- Python `str(b)` for a boolean `b`. -/
def pyStrBool (b : Bool) : String :=
  if b then "True" else "False"

/-- Kind of a raised Python exception, as far as the handler distinguishes
them: a `marshmallow.ValidationError` (carrying its string form) or any
other exception. -/
inductive ExnKind
  | validation (msg : String)
  | other
deriving DecidableEq

/-- Result of `getattr(response, "text", None)`: the attribute is missing
(`None` is returned), or it is the string `s`, or evaluating the attribute
raises. -/
inductive TextAttr
  | missing
  | val (s : String)
  | raises
deriving DecidableEq

/-- View of the first candidate object of a provider response, as accessed by
`cand.content.parts if hasattr(cand, "content") else []`: no `content`
attribute, a structural error raised while descending, or the list of the
parts' `text` attributes (a missing `text` is the default `""`). -/
inductive CandContent
  | noContent
  | contentErr
  | contentParts (texts : List String)
deriving DecidableEq

/-- A provider response object: its `text` attribute and its `candidates`
attribute (`none` when `hasattr(response, "candidates")` is false). -/
structure ProviderResponse where
  text : TextAttr
  candidates : Option (List CandContent)
deriving DecidableEq

/-- Outcome of one candidate-model attempt: `genai.GenerativeModel(name)`
raises, `model.generate_content(...)` raises, or a response object is
returned. -/
inductive AttemptResult
  | ctorRaises (k : ExnKind)
  | genRaises (k : ExnKind)
  | responds (r : ProviderResponse)
deriving DecidableEq

/-- The external provider, as an oracle: whether `genai.configure` raises
(and with which exception kind), and the outcome of an attempt for each
model name. -/
structure Provider where
  configure : Option ExnKind
  attempt : String → AttemptResult

/-- Environment/process state read by the handler: `GEMINI_API_KEY`,
`ALLOW_FAKE_GEMINI` (each `none` when unset) and whether the
`google.generativeai` import succeeded (`genai is not None`). -/
structure Env where
  geminiApiKey : Option String
  allowFakeGemini : Option String
  genaiAvailable : Bool

/-- The raw `message` value bound by the request schema: a string, or any
non-string value. -/
inductive RawMessage
  | str (s : String)
  | nonString
deriving DecidableEq

/-- A provider call observable in the handler: `genai.configure`,
`genai.GenerativeModel(name)`, or `model.generate_content` for `name`. -/
inductive CallEvent
  | configure
  | newModel (name : String)
  | generateContent (name : String)
deriving DecidableEq

/-- HTTP-level result of the handler: `abort(400, ...)` with an error
message, or a 200 response `{"reply": reply}`. -/
inductive ChatResult
  | badRequest (error : String)
  | ok (reply : String)
deriving DecidableEq

/-- Source `_friendly_fallback`: the fixed apology reply. -/
def _friendly_fallback (message : String) : String :=
  "Sorry, I'm having trouble responding right now. Please try again."

/-- Source `_fake_or_fallback`: echo stub when fake mode is allowed,
otherwise the friendly fallback. -/
def _fake_or_fallback (message : String) (allow_fake : Bool) : String :=
  if allow_fake then "Echo: " ++ pyStrip message else _friendly_fallback message

/-- Source `_bool_env`: `os.getenv(name, str(default)).lower()` compared
against `("1", "true", "yes", "on")`.  `raw` is the environment variable
value (`none` when unset). -/
def _bool_env (raw : Option String) (default : Bool) : Bool :=
  let val := pyLower (raw.getD (pyStrBool default))
  val == "1" || val == "true" || val == "yes" || val == "on"

/-- Source line 96: `api_key_present = bool(api_key and api_key.strip())`. -/
def api_key_present : Option String → Bool
  | none => false
  | some s => pyTruthy s && pyTruthy (pyStrip s)

/-- The extraction block of the handler after `reply_text` was set from
`getattr(response, "text", None)` (`rt`): if `reply_text` is falsy and the
response has a non-empty `candidates` attribute, read the first candidate's
content parts and join their non-empty texts with spaces, trimming the
result; a structural error yields `none` (`reply_text = None`); otherwise
`reply_text` is left unchanged. -/
def candBranch (rt : Option String) (cands : Option (List CandContent)) : Option String :=
  if truthyOpt rt then rt
  else
    match cands with
    | some (c :: _) =>
      (match c with
       | CandContent.noContent => some (pyStrip (pyJoinSpace []))
       | CandContent.contentErr => none
       | CandContent.contentParts ts =>
           some (pyStrip (pyJoinSpace (ts.filter (fun t => pyTruthy t)))))
    | _ => rt

/-- End of one attempt: if the extracted `reply_text` is falsy a
`RuntimeError` is raised (the attempt fails, `none`); otherwise the reply is
`reply_text.strip()[:2000]`. -/
def finishAttempt : Option String → Option String
  | some s => if pyTruthy s then some (pyTake (pyStrip s) 2000) else none
  | none => none

/-- One iteration of the candidate loop for an attempt outcome: any raised
exception is caught by the per-model `except Exception` (the attempt fails);
otherwise the response is run through the extraction block. -/
def tryAttempt : AttemptResult → Option String
  | AttemptResult.ctorRaises _ => none
  | AttemptResult.genRaises _ => none
  | AttemptResult.responds r =>
    match r.text with
    | TextAttr.raises => none
    | TextAttr.missing => finishAttempt (candBranch none r.candidates)
    | TextAttr.val s => finishAttempt (candBranch (some s) r.candidates)

/-- Provider calls made during one attempt: the model constructor is always
invoked; `generate_content` is invoked unless the constructor raised. -/
def attemptEvents (name : String) : AttemptResult → List CallEvent
  | AttemptResult.ctorRaises _ => [CallEvent.newModel name]
  | _ => [CallEvent.newModel name, CallEvent.generateContent name]

/-- The candidate loop: try each model name in order, stopping at the first
success; return the call trace and the successful reply, if any. -/
def runCandidates (p : Provider) : List String → List CallEvent × Option String
  | [] => ([], none)
  | name :: rest =>
    match tryAttempt (p.attempt name) with
    | some reply => (attemptEvents name (p.attempt name), some reply)
    | none =>
      let recur := runCandidates p rest
      (attemptEvents name (p.attempt name) ++ recur.1, recur.2)

/-- Source line 112: `model_name_candidates = ["gemini-1.5-flash", "gemini-pro"]`. -/
def model_name_candidates : List String :=
  ["gemini-1.5-flash", "gemini-pro"]

/-- Source `_handle_chat`: validate the message, apply the credential and
capability gate, configure the client, run the candidate loop, and resolve
failures through `_fake_or_fallback`.  A `ValidationError` raised by
`genai.configure` is caught by the outer `except ValidationError` and turned
into a 400; any other exception there is caught by the outer
`except Exception` and resolved via the fallback.  Returns the provider call
trace and the HTTP-level result. -/
def _handle_chat (env : Env) (p : Provider) (message : RawMessage) :
    List CallEvent × ChatResult :=
  match message with
  | RawMessage.nonString => ([], ChatResult.badRequest "message is required")
  | RawMessage.str m =>
    if !pyTruthy (pyStrip m) then ([], ChatResult.badRequest "message is required")
    else
      let allow_fake := _bool_env env.allowFakeGemini false
      if !api_key_present env.geminiApiKey || !env.genaiAvailable then
        ([], ChatResult.ok (_fake_or_fallback m allow_fake))
      else
        match p.configure with
        | some (ExnKind.validation ve) =>
            ([CallEvent.configure], ChatResult.badRequest ve)
        | some ExnKind.other =>
            ([CallEvent.configure], ChatResult.ok (_fake_or_fallback m allow_fake))
        | none =>
          let run := runCandidates p model_name_candidates
          match run.2 with
          | some reply => (CallEvent.configure :: run.1, ChatResult.ok reply)
          | none =>
              (CallEvent.configure :: run.1,
               ChatResult.ok (_fake_or_fallback m allow_fake))

/-- The model name of a `newModel` event, used to state which candidate
models were attempted. -/
def newModelName : CallEvent → Option String
  | CallEvent.newModel n => some n
  | _ => none

/-- Spec wording of the Reply Extractor's candidate branch (§4.5 (b)):
concatenate all non-empty text fragments from the parts with single-space
separators and trim the result. -/
def spec_extract_from_parts (parts : List String) : String :=
  pyStrip (pyJoinSpace (parts.filter (fun t => pyTruthy t)))

/-- A provider whose model constructor always raises a non-validation
exception. -/
def pStub : Provider :=
  ⟨none, fun _ => AttemptResult.ctorRaises ExnKind.other⟩

/-- A provider whose every response carries the whitespace-only direct text
field `" "`. -/
def pTextWs : Provider :=
  ⟨none, fun _ => AttemptResult.responds ⟨TextAttr.val " ", none⟩⟩

/-- A provider whose `genai.configure` raises a `ValidationError`. -/
def pValidation : Provider :=
  ⟨some (ExnKind.validation "boom"), fun _ => AttemptResult.ctorRaises ExnKind.other⟩

/-- A provider where the first candidate model yields an empty response and
the second yields nested candidate parts with texts `"a"` and `"b"`. -/
def pNested : Provider :=
  ⟨none, fun name =>
    if name = "gemini-1.5-flash" then AttemptResult.responds ⟨TextAttr.missing, none⟩
    else AttemptResult.responds ⟨TextAttr.missing, some [CandContent.contentParts ["a", "b"]]⟩⟩

/-- A provider whose every response raises a structural error while
descending into the first candidate's content parts. -/
def pStructErr : Provider :=
  ⟨none, fun _ => AttemptResult.responds ⟨TextAttr.missing, some [CandContent.contentErr]⟩⟩

/-- A message of 2001 non-whitespace characters, exceeding the 2000-character
reply cap once echoed. -/
def longMsg : String :=
  String.mk (List.replicate 2001 'a')

/-- A provider whose every response carries the direct text field `"  ok  "`. -/
def pTextVal : Provider :=
  ⟨none, fun _ => AttemptResult.responds ⟨TextAttr.val "  ok  ", none⟩⟩

/-- A provider that behaves like `pStub` on both candidate model names but
differently on other names. -/
def pStubAlt : Provider :=
  ⟨none, fun name =>
    if name = "other-model" then AttemptResult.genRaises ExnKind.other
    else AttemptResult.ctorRaises ExnKind.other⟩

end GeminiChat

namespace GeminiChat

theorem gate_fallback (env : Env) (p : Provider) (m : String)
    (hm : pyTruthy (pyStrip m) = true)
    (h : api_key_present env.geminiApiKey = false ∨ env.genaiAvailable = false) :
    _handle_chat env p (RawMessage.str m)
      = ([], ChatResult.ok (_fake_or_fallback m (_bool_env env.allowFakeGemini false))) := by
  rcases h with h | h <;> simp [_handle_chat, hm, h]

theorem dropWhile_replicate_of_not {p : Char → Bool} {c : Char} (h : p c = false) (n : Nat) :
    List.dropWhile p (List.replicate n c) = List.replicate n c := by
  cases n with
  | zero => rfl
  | succ k => simp [List.replicate, List.dropWhile, h]

theorem pyStrip_replicate (n : Nat) :
    pyStrip (String.mk (List.replicate n 'a')) = String.mk (List.replicate n 'a') := by
  simp [pyStrip, dropWhile_replicate_of_not (by decide : ('a').isWhitespace = false),
    List.reverse_replicate]

theorem pyStrip_longMsg : pyStrip longMsg = longMsg :=
  pyStrip_replicate 2001

theorem pyTruthy_of_strip {s : String} (h : pyTruthy (pyStrip s) = true) :
    pyTruthy s = true := by
  by_contra hs
  rw [Bool.not_eq_true] at hs
  cases s with
  | mk l =>
    simp [pyTruthy] at hs
    subst hs
    simp [pyStrip, pyTruthy] at h

theorem eq_empty_of_not_truthy {s : String} (h : pyTruthy s = false) : s = "" := by
  cases s with
  | mk l =>
    simp [pyTruthy] at h
    subst h
    decide

/-- C3: for every input where the message is not a string, or is empty or
whitespace-only after trimming, the handler aborts with a 400 error body and
no provider call (configure, model constructor, or generate_content) is made:
the call trace is empty. -/
theorem c3_invalid_message_400 :
    ∀ (env : Env) (p : Provider) (msg : RawMessage),
      (msg = RawMessage.nonString ∨
        ∃ s, msg = RawMessage.str s ∧ pyTruthy (pyStrip s) = false) →
      _handle_chat env p msg = ([], ChatResult.badRequest "message is required") := by
  intro env p msg h
  rcases h with h | ⟨s, hs, hval⟩
  · subst h; rfl
  · subst hs; simp [_handle_chat, hval]

theorem c3_witness :
    _handle_chat ⟨some "k", none, true⟩ pStub (RawMessage.str "  ")
      = ([], ChatResult.badRequest "message is required") :=
  c3_invalid_message_400 _ _ _ (Or.inr ⟨"  ", rfl, by decide⟩)

/-- C7: for every valid message, when the gate triggers (credential absent or
blank, or the provider client unavailable), the handler returns a 200 reply
that is the echo stub when `allowFakeMode` is true and the fixed apology
string otherwise, and no provider call is attempted (empty call trace). -/
theorem c7_gate_behavior :
    ∀ (env : Env) (p : Provider) (m : String),
      pyTruthy (pyStrip m) = true →
      (api_key_present env.geminiApiKey = false ∨ env.genaiAvailable = false) →
      _handle_chat env p (RawMessage.str m)
        = ([], ChatResult.ok
            (if _bool_env env.allowFakeGemini false then "Echo: " ++ pyStrip m
             else "Sorry, I'm having trouble responding right now. Please try again.")) := by
  intro env p m hm h
  rw [gate_fallback env p m hm h]
  cases hb : _bool_env env.allowFakeGemini false <;>
    simp [_fake_or_fallback, _friendly_fallback, hb]

theorem c7_witness :
    pyTruthy (pyStrip "hello") = true ∧
    _handle_chat ⟨none, some "1", true⟩ pStub (RawMessage.str "hello")
      = ([], ChatResult.ok
          (if _bool_env (some "1") false then "Echo: " ++ pyStrip "hello"
           else "Sorry, I'm having trouble responding right now. Please try again.")) :=
  ⟨by decide, c7_gate_behavior ⟨none, some "1", true⟩ pStub "hello" (by decide)
    (Or.inl (by decide))⟩

/-- C10: the `allowFakeMode` flag is computed by `_bool_env` from the
`ALLOW_FAKE_GEMINI` value by lowercasing it and comparing against
`{"1", "true", "yes", "on"}`; it is true exactly when the lowercased value is
in that set, and false otherwise, including when the variable is unset
(default `"False"`). -/
theorem c10_bool_env :
    (∀ s : String,
      _bool_env (some s) false = true ↔
        (pyLower s = "1" ∨ pyLower s = "true" ∨ pyLower s = "yes" ∨ pyLower s = "on")) ∧
    _bool_env none false = false := by
  constructor
  · intro s
    simp [_bool_env]
    tauto
  · decide

theorem run_open_success (env : Env) (p : Provider) (m r : String)
    (hm : pyTruthy (pyStrip m) = true)
    (hk : api_key_present env.geminiApiKey = true)
    (hg : env.genaiAvailable = true)
    (hc : p.configure = none)
    (hs : (runCandidates p model_name_candidates).2 = some r) :
    _handle_chat env p (RawMessage.str m)
      = (CallEvent.configure :: (runCandidates p model_name_candidates).1,
         ChatResult.ok r) := by
  simp [_handle_chat, hm, hk, hg, hc, hs]

theorem run_open_fail (env : Env) (p : Provider) (m : String)
    (hm : pyTruthy (pyStrip m) = true)
    (hk : api_key_present env.geminiApiKey = true)
    (hg : env.genaiAvailable = true)
    (hc : p.configure = none)
    (hs : (runCandidates p model_name_candidates).2 = none) :
    _handle_chat env p (RawMessage.str m)
      = (CallEvent.configure :: (runCandidates p model_name_candidates).1,
         ChatResult.ok (_fake_or_fallback m (_bool_env env.allowFakeGemini false))) := by
  simp [_handle_chat, hm, hk, hg, hc, hs]

theorem open_configure_validation (env : Env) (p : Provider) (m ve : String)
    (hm : pyTruthy (pyStrip m) = true)
    (hk : api_key_present env.geminiApiKey = true)
    (hg : env.genaiAvailable = true)
    (hc : p.configure = some (ExnKind.validation ve)) :
    _handle_chat env p (RawMessage.str m)
      = ([CallEvent.configure], ChatResult.badRequest ve) := by
  simp [_handle_chat, hm, hk, hg, hc]

theorem open_configure_other (env : Env) (p : Provider) (m : String)
    (hm : pyTruthy (pyStrip m) = true)
    (hk : api_key_present env.geminiApiKey = true)
    (hg : env.genaiAvailable = true)
    (hc : p.configure = some ExnKind.other) :
    _handle_chat env p (RawMessage.str m)
      = ([CallEvent.configure],
         ChatResult.ok (_fake_or_fallback m (_bool_env env.allowFakeGemini false))) := by
  simp [_handle_chat, hm, hk, hg, hc]

theorem runCandidates_first_success (p : Provider) (r : String)
    (h : tryAttempt (p.attempt "gemini-1.5-flash") = some r) :
    runCandidates p model_name_candidates
      = (attemptEvents "gemini-1.5-flash" (p.attempt "gemini-1.5-flash"), some r) := by
  simp [runCandidates, model_name_candidates, h]

theorem runCandidates_second_success (p : Provider) (r : String)
    (h1 : tryAttempt (p.attempt "gemini-1.5-flash") = none)
    (h2 : tryAttempt (p.attempt "gemini-pro") = some r) :
    runCandidates p model_name_candidates
      = (attemptEvents "gemini-1.5-flash" (p.attempt "gemini-1.5-flash")
          ++ attemptEvents "gemini-pro" (p.attempt "gemini-pro"), some r) := by
  simp [runCandidates, model_name_candidates, h1, h2]

theorem runCandidates_both_fail (p : Provider)
    (h1 : tryAttempt (p.attempt "gemini-1.5-flash") = none)
    (h2 : tryAttempt (p.attempt "gemini-pro") = none) :
    runCandidates p model_name_candidates
      = (attemptEvents "gemini-1.5-flash" (p.attempt "gemini-1.5-flash")
          ++ attemptEvents "gemini-pro" (p.attempt "gemini-pro"), none) := by
  simp [runCandidates, model_name_candidates, h1, h2]

theorem attemptEvents_models (n : String) (a : AttemptResult) :
    (attemptEvents n a).filterMap newModelName = [n] := by
  cases a <;> simp [attemptEvents, newModelName]

theorem pyTake_length_le (s : String) (n : Nat) : (pyTake s n).length ≤ n := by
  simp [pyTake, List.length_take]

theorem finishAttempt_shape {o : Option String} {r : String}
    (h : finishAttempt o = some r) : ∃ s, r = pyTake (pyStrip s) 2000 := by
  cases o with
  | none => simp [finishAttempt] at h
  | some s =>
    by_cases ht : pyTruthy s = true
    · simp [finishAttempt, ht] at h
      exact ⟨s, h.symm⟩
    · rw [Bool.not_eq_true] at ht
      simp [finishAttempt, ht] at h

theorem tryAttempt_shape {a : AttemptResult} {r : String}
    (h : tryAttempt a = some r) : ∃ s, r = pyTake (pyStrip s) 2000 := by
  cases a with
  | ctorRaises k => simp [tryAttempt] at h
  | genRaises k => simp [tryAttempt] at h
  | responds resp =>
    cases htxt : resp.text with
    | raises => simp [tryAttempt, htxt] at h
    | missing =>
      simp only [tryAttempt, htxt] at h
      exact finishAttempt_shape h
    | val s =>
      simp only [tryAttempt, htxt] at h
      exact finishAttempt_shape h

theorem runCandidates_shape (p : Provider) :
    ∀ (l : List String) (r : String),
      (runCandidates p l).2 = some r → ∃ s, r = pyTake (pyStrip s) 2000 := by
  intro l
  induction l with
  | nil => intro r h; simp [runCandidates] at h
  | cons name rest ih =>
    intro r h
    cases ha : tryAttempt (p.attempt name) with
    | some rr =>
      simp [runCandidates, ha] at h
      subst h
      exact tryAttempt_shape ha
    | none =>
      simp [runCandidates, ha] at h
      exact ih r h

/-- C5: for every valid message, when the gate passes and the first candidate
model responds with a direct text field that is non-empty after trimming, the
handler returns that text trimmed and capped at 2000 characters, regardless of
the candidates structure, and the second candidate model is never attempted
(the trace contains only the first model's calls). -/
theorem c5_first_text_success :
    ∀ (env : Env) (p : Provider) (m t : String) (cands : Option (List CandContent)),
      pyTruthy (pyStrip m) = true →
      api_key_present env.geminiApiKey = true →
      env.genaiAvailable = true →
      p.configure = none →
      p.attempt "gemini-1.5-flash" = AttemptResult.responds ⟨TextAttr.val t, cands⟩ →
      pyTruthy (pyStrip t) = true →
      _handle_chat env p (RawMessage.str m)
        = ([CallEvent.configure, CallEvent.newModel "gemini-1.5-flash",
            CallEvent.generateContent "gemini-1.5-flash"],
           ChatResult.ok (pyTake (pyStrip t) 2000)) := by
  intro env p m t cands hm hk hg hc ha ht
  have htt : pyTruthy t = true := pyTruthy_of_strip ht
  have htry : tryAttempt (p.attempt "gemini-1.5-flash") = some (pyTake (pyStrip t) 2000) := by
    rw [ha]
    simp [tryAttempt, candBranch, truthyOpt, htt, finishAttempt]
  have hrun := runCandidates_first_success p _ htry
  have hh := run_open_success env p m _ hm hk hg hc (by rw [hrun])
  rw [hh, hrun, ha]
  rfl

/-- C9: for every valid message with the gate passed, when the first
candidate model's response has a direct text field that is non-empty but
whitespace-only, the handler returns a 200 response with the empty string as
reply, without consulting the candidates structure (any `cands` gives the
same result) and without attempting the second candidate model. -/
theorem c9_ws_text :
    ∀ (env : Env) (p : Provider) (m t : String) (cands : Option (List CandContent)),
      pyTruthy (pyStrip m) = true →
      api_key_present env.geminiApiKey = true →
      env.genaiAvailable = true →
      p.configure = none →
      p.attempt "gemini-1.5-flash" = AttemptResult.responds ⟨TextAttr.val t, cands⟩ →
      pyTruthy t = true →
      pyTruthy (pyStrip t) = false →
      _handle_chat env p (RawMessage.str m)
        = ([CallEvent.configure, CallEvent.newModel "gemini-1.5-flash",
            CallEvent.generateContent "gemini-1.5-flash"],
           ChatResult.ok "") := by
  intro env p m t cands hm hk hg hc ha htt hts
  have hstrip : pyStrip t = "" := eq_empty_of_not_truthy hts
  have hempty : pyTake (pyStrip t) 2000 = "" := by
    rw [hstrip]; decide
  have htry : tryAttempt (p.attempt "gemini-1.5-flash") = some (pyTake (pyStrip t) 2000) := by
    rw [ha]
    simp [tryAttempt, candBranch, truthyOpt, htt, finishAttempt]
  rw [hempty] at htry
  have hrun := runCandidates_first_success p _ htry
  have hh := run_open_success env p m _ hm hk hg hc (by rw [hrun])
  rw [hh, hrun, ha]
  rfl

/-- C8: the handler is deterministic: two runs with the same message, the
same environment, and providers that agree on `configure` and on the attempts
for both candidate model names produce identical results; no other provider
behavior and no per-call randomness influences the reply. -/
theorem c8_deterministic :
    ∀ (env : Env) (p₁ p₂ : Provider) (m : RawMessage),
      p₁.configure = p₂.configure →
      p₁.attempt "gemini-1.5-flash" = p₂.attempt "gemini-1.5-flash" →
      p₁.attempt "gemini-pro" = p₂.attempt "gemini-pro" →
      _handle_chat env p₁ m = _handle_chat env p₂ m := by
  intro env p₁ p₂ m hc h1 h2
  cases m with
  | nonString => rfl
  | str s =>
    simp only [_handle_chat, model_name_candidates, runCandidates, hc, h1, h2]

theorem c5_witness :
    pyTruthy (pyStrip "hi") = true ∧
    pyTruthy (pyStrip "  ok  ") = true ∧
    _handle_chat ⟨some "k", none, true⟩ pTextVal (RawMessage.str "hi")
      = ([CallEvent.configure, CallEvent.newModel "gemini-1.5-flash",
          CallEvent.generateContent "gemini-1.5-flash"],
         ChatResult.ok (pyTake (pyStrip "  ok  ") 2000)) :=
  ⟨by decide, by decide,
    c5_first_text_success ⟨some "k", none, true⟩ pTextVal "hi" "  ok  " none
      (by decide) (by decide) rfl rfl rfl (by decide)⟩

theorem c9_witness :
    pyTruthy (" " : String) = true ∧
    pyTruthy (pyStrip " ") = false ∧
    _handle_chat ⟨some "k", none, true⟩ pTextWs (RawMessage.str "hi")
      = ([CallEvent.configure, CallEvent.newModel "gemini-1.5-flash",
          CallEvent.generateContent "gemini-1.5-flash"],
         ChatResult.ok "") :=
  ⟨by decide, by decide,
    c9_ws_text ⟨some "k", none, true⟩ pTextWs "hi" " " none
      (by decide) (by decide) rfl rfl rfl (by decide) (by decide)⟩

theorem c8_witness :
    _handle_chat ⟨some "k", none, true⟩ pStub (RawMessage.str "hi")
      = _handle_chat ⟨some "k", none, true⟩ pStubAlt (RawMessage.str "hi") :=
  c8_deterministic ⟨some "k", none, true⟩ pStub pStubAlt (RawMessage.str "hi")
    rfl (by decide) (by decide)

/-- C4 counterexample: with the credential present, the client available, and
every candidate attempt failing, but `ALLOW_FAKE_GEMINI="true"`, the handler
returns the echo stub rather than the fixed apology string, refuting the
claim as stated. -/
theorem c4_counterexample :
    _handle_chat ⟨some "k", some "true", true⟩ pStub (RawMessage.str "hi")
      = ([CallEvent.configure, CallEvent.newModel "gemini-1.5-flash",
          CallEvent.newModel "gemini-pro"], ChatResult.ok "Echo: hi") ∧
    ("Echo: hi" : String) ≠ _friendly_fallback "hi" :=
  ⟨by decide, by decide⟩

/-- C4 (amended): for every valid message, when the credential is present,
the client available, `genai.configure` does not raise, and both candidate
attempts fail, the handler returns 200 with the echo stub if `allowFakeMode`
is true and otherwise the fixed apology string; both candidate models were
attempted, in order, each exactly once. -/
theorem c4_amended_exhausted :
    ∀ (env : Env) (p : Provider) (m : String),
      pyTruthy (pyStrip m) = true →
      api_key_present env.geminiApiKey = true →
      env.genaiAvailable = true →
      p.configure = none →
      tryAttempt (p.attempt "gemini-1.5-flash") = none →
      tryAttempt (p.attempt "gemini-pro") = none →
      (_handle_chat env p (RawMessage.str m)).2
        = ChatResult.ok
            (if _bool_env env.allowFakeGemini false then "Echo: " ++ pyStrip m
             else "Sorry, I'm having trouble responding right now. Please try again.") ∧
      (_handle_chat env p (RawMessage.str m)).1.filterMap newModelName
        = ["gemini-1.5-flash", "gemini-pro"] := by
  intro env p m hm hk hg hc h1 h2
  have hrun := runCandidates_both_fail p h1 h2
  have hh := run_open_fail env p m hm hk hg hc (by rw [hrun])
  rw [hh]
  constructor
  · cases hb : _bool_env env.allowFakeGemini false <;>
      simp [_fake_or_fallback, _friendly_fallback, hb]
  · simp [hrun, List.filterMap_append, attemptEvents_models, newModelName]

theorem c4_witness :
    pyTruthy (pyStrip "hi") = true ∧
    ((_handle_chat ⟨some "k", none, true⟩ pStub (RawMessage.str "hi")).2
        = ChatResult.ok
            (if _bool_env (none : Option String) false then "Echo: " ++ pyStrip "hi"
             else "Sorry, I'm having trouble responding right now. Please try again.") ∧
      (_handle_chat ⟨some "k", none, true⟩ pStub (RawMessage.str "hi")).1.filterMap newModelName
        = ["gemini-1.5-flash", "gemini-pro"]) :=
  ⟨by decide,
    c4_amended_exhausted ⟨some "k", none, true⟩ pStub "hi"
      (by decide) (by decide) rfl rfl (by decide) (by decide)⟩

/-- C6: when a provider response has no usable direct text field but exposes
a non-empty candidates sequence whose first candidate carries content parts,
the extraction returns exactly the spec's normalization (non-empty fragments
joined by single spaces, trimmed); a structural error while descending is
treated as an empty extraction; concretely, when the first candidate model
yields an empty response and the second carries nested parts `"a"` and `"b"`,
the reply is `"a b"`, and structural errors never propagate: the handler
still answers 200 with the fallback. -/
theorem c6_candidate_extraction :
    ∀ (ts : List String) (rest rest2 : List CandContent) (rt : Option String),
      truthyOpt rt = false →
      (candBranch rt (some (CandContent.contentParts ts :: rest))
          = some (spec_extract_from_parts ts)
        ∧ candBranch rt (some (CandContent.contentErr :: rest2)) = none
        ∧ _handle_chat ⟨some "k", none, true⟩ pNested (RawMessage.str "hi")
            = ([CallEvent.configure, CallEvent.newModel "gemini-1.5-flash",
                CallEvent.generateContent "gemini-1.5-flash",
                CallEvent.newModel "gemini-pro", CallEvent.generateContent "gemini-pro"],
               ChatResult.ok "a b")
        ∧ _handle_chat ⟨some "k", none, true⟩ pStructErr (RawMessage.str "hi")
            = ([CallEvent.configure, CallEvent.newModel "gemini-1.5-flash",
                CallEvent.generateContent "gemini-1.5-flash",
                CallEvent.newModel "gemini-pro", CallEvent.generateContent "gemini-pro"],
               ChatResult.ok (_friendly_fallback "hi"))) := by
  intro ts rest rest2 rt h
  refine ⟨?_, ?_, by decide, by decide⟩
  · simp [candBranch, h, spec_extract_from_parts]
  · simp [candBranch, h]

theorem c6_witness :
    truthyOpt none = false ∧
    (candBranch none (some (CandContent.contentParts ["a", "b"] :: []))
        = some (spec_extract_from_parts ["a", "b"])
      ∧ candBranch none (some (CandContent.contentErr :: [])) = none
      ∧ _handle_chat ⟨some "k", none, true⟩ pNested (RawMessage.str "hi")
          = ([CallEvent.configure, CallEvent.newModel "gemini-1.5-flash",
              CallEvent.generateContent "gemini-1.5-flash",
              CallEvent.newModel "gemini-pro", CallEvent.generateContent "gemini-pro"],
             ChatResult.ok "a b")
      ∧ _handle_chat ⟨some "k", none, true⟩ pStructErr (RawMessage.str "hi")
          = ([CallEvent.configure, CallEvent.newModel "gemini-1.5-flash",
              CallEvent.generateContent "gemini-1.5-flash",
              CallEvent.newModel "gemini-pro", CallEvent.generateContent "gemini-pro"],
             ChatResult.ok (_friendly_fallback "hi"))) :=
  ⟨by decide, c6_candidate_extraction ["a", "b"] [] [] none (by decide)⟩

/-- C1 counterexample: a `ValidationError` raised inside `genai.configure`
for a valid message is caught by the outer `except ValidationError` and
turned into a 400, not resolved via the Fallback Policy with 200, refuting
the claim as stated. -/
theorem c1_counterexample :
    pyTruthy (pyStrip "hi") = true ∧
    _handle_chat ⟨some "k", none, true⟩ pValidation (RawMessage.str "hi")
      = ([CallEvent.configure], ChatResult.badRequest "boom") :=
  ⟨by decide, by decide⟩

/-- C1 (amended): for every valid message, the handler answers 200 if and
only if it is not the case that the gate passes and `genai.configure` raises
a `ValidationError`; every other fault during provider invocation (any
exception in model construction, `generate_content`, or extraction, and
non-validation exceptions in `configure`) is resolved via the fallback with
200. -/
theorem c1_amended_ok_iff :
    ∀ (env : Env) (p : Provider) (m : String),
      pyTruthy (pyStrip m) = true →
      ((∃ r, (_handle_chat env p (RawMessage.str m)).2 = ChatResult.ok r) ↔
        ¬(api_key_present env.geminiApiKey = true ∧ env.genaiAvailable = true ∧
          ∃ ve, p.configure = some (ExnKind.validation ve))) := by
  intro env p m hm
  by_cases hk : api_key_present env.geminiApiKey = true
  · by_cases hg : env.genaiAvailable = true
    · cases hc : p.configure with
      | none =>
        apply iff_of_true
        · cases hs : (runCandidates p model_name_candidates).2 with
          | some r =>
            exact ⟨r, by rw [run_open_success env p m r hm hk hg hc hs]⟩
          | none =>
            exact ⟨_, by rw [run_open_fail env p m hm hk hg hc hs]⟩
        · rintro ⟨-, -, ve, hve⟩
          simp at hve
      | some k =>
        cases k with
        | validation ve =>
          apply iff_of_false
          · rintro ⟨r, hr⟩
            rw [open_configure_validation env p m ve hm hk hg hc] at hr
            cases hr
          · intro hn
            exact hn ⟨hk, hg, ve, rfl⟩
        | other =>
          apply iff_of_true
          · exact ⟨_, by rw [open_configure_other env p m hm hk hg hc]⟩
          · rintro ⟨-, -, ve, hve⟩
            simp at hve
    · rw [Bool.not_eq_true] at hg
      apply iff_of_true
      · exact ⟨_, by rw [gate_fallback env p m hm (Or.inr hg)]⟩
      · rintro ⟨-, hg2, -⟩
        rw [hg] at hg2
        cases hg2
  · rw [Bool.not_eq_true] at hk
    apply iff_of_true
    · exact ⟨_, by rw [gate_fallback env p m hm (Or.inl hk)]⟩
    · rintro ⟨hk2, -, -⟩
      rw [hk] at hk2
      cases hk2

theorem c1_witness :
    pyTruthy (pyStrip "hi") = true ∧
    ((∃ r, (_handle_chat ⟨none, none, false⟩ pStub (RawMessage.str "hi")).2
        = ChatResult.ok r) ↔
      ¬(api_key_present (none : Option String) = true ∧ false = true ∧
        ∃ ve, pStub.configure = some (ExnKind.validation ve))) :=
  ⟨by decide, c1_amended_ok_iff ⟨none, none, false⟩ pStub "hi" (by decide)⟩

theorem friendly_eq (m : String) :
    _friendly_fallback m
      = "Sorry, I'm having trouble responding right now. Please try again." := rfl

theorem friendly_truthy (m : String) : pyTruthy (_friendly_fallback m) = true := by
  rw [friendly_eq]; decide

theorem friendly_length_le (m : String) : (_friendly_fallback m).length ≤ 2000 := by
  rw [friendly_eq]; decide

theorem echo_truthy (m : String) : pyTruthy ("Echo: " ++ pyStrip m) = true := by
  have h : ("Echo: " ++ pyStrip m).data = "Echo: ".data ++ (pyStrip m).data := rfl
  simp [pyTruthy, h]

theorem fallback_shape (m : String) (allow : Bool) :
    _fake_or_fallback m allow = _friendly_fallback m ∨
    _fake_or_fallback m allow = "Echo: " ++ pyStrip m := by
  cases allow <;> simp [_fake_or_fallback]

theorem echo_longMsg_length : ("Echo: " ++ longMsg).length = 2007 := by
  have h1 : ("Echo: " ++ longMsg).length
      = ("Echo: ".data ++ List.replicate 2001 'a').length := rfl
  rw [h1, List.length_append, List.length_replicate]
  have h2 : "Echo: ".data.length = 6 := rfl
  rw [h2]

/-- C2 counterexample: the claimed reply invariant fails twice on the code:
a whitespace-only direct text field from the first candidate yields an empty
reply (violating non-emptiness), and the uncapped echo stub for a
2001-character message yields a 2007-character reply (violating the
2000-character cap). -/
theorem c2_counterexample :
    (pyTruthy (pyStrip "hi") = true ∧
      (_handle_chat ⟨some "k", none, true⟩ pTextWs (RawMessage.str "hi")).2
        = ChatResult.ok "" ∧ pyTruthy "" = false) ∧
    (pyTruthy (pyStrip longMsg) = true ∧
      (_handle_chat ⟨none, some "true", true⟩ pStub (RawMessage.str longMsg)).2
        = ChatResult.ok ("Echo: " ++ longMsg) ∧
      ("Echo: " ++ longMsg).length = 2007) := by
  have hv : pyTruthy (pyStrip longMsg) = true := by
    rw [pyStrip_longMsg]; rfl
  refine ⟨⟨by decide, by decide, by decide⟩, hv, ?_, echo_longMsg_length⟩
  have hgate := gate_fallback ⟨none, some "true", true⟩ pStub longMsg hv (Or.inl rfl)
  rw [hgate]
  have hb : _bool_env (some "true") false = true := by decide
  show ChatResult.ok (_fake_or_fallback longMsg (_bool_env (some "true") false))
      = ChatResult.ok ("Echo: " ++ longMsg)
  rw [hb]
  simp [_fake_or_fallback, pyStrip_longMsg]

/-- C2 (amended): for every valid message, every reply the handler produces
is the friendly fallback, the echo stub `"Echo: " ++ trimmed(message)`, or a
provider extraction of the form `strip(s)[:2000]`; the fallback and the echo
stub are non-empty and every reply other than the echo stub has length at
most 2000, but the echo stub is uncapped and a provider-derived reply may be
empty (whitespace-only direct text). -/
theorem c2_amended_reply_shape :
    ∀ (env : Env) (p : Provider) (m r : String),
      pyTruthy (pyStrip m) = true →
      (_handle_chat env p (RawMessage.str m)).2 = ChatResult.ok r →
      (r = "Echo: " ++ pyStrip m ∨ r.length ≤ 2000) ∧
      (r = _friendly_fallback m ∨ r = "Echo: " ++ pyStrip m ∨
        ∃ s, r = pyTake (pyStrip s) 2000) ∧
      pyTruthy (_friendly_fallback m) = true ∧
      pyTruthy ("Echo: " ++ pyStrip m) = true := by
  intro env p m r hm hr
  have hfb : ∀ allow : Bool, _fake_or_fallback m allow = r →
      (r = "Echo: " ++ pyStrip m ∨ r.length ≤ 2000) ∧
      (r = _friendly_fallback m ∨ r = "Echo: " ++ pyStrip m ∨
        ∃ s, r = pyTake (pyStrip s) 2000) ∧
      pyTruthy (_friendly_fallback m) = true ∧
      pyTruthy ("Echo: " ++ pyStrip m) = true := by
    intro allow heq
    rcases fallback_shape m allow with hsh | hsh <;> rw [heq] at hsh
    · refine ⟨Or.inr ?_, Or.inl hsh, friendly_truthy m, echo_truthy m⟩
      rw [hsh]
      exact friendly_length_le m
    · exact ⟨Or.inl hsh, Or.inr (Or.inl hsh), friendly_truthy m, echo_truthy m⟩
  by_cases hk : api_key_present env.geminiApiKey = true
  · by_cases hg : env.genaiAvailable = true
    · cases hc : p.configure with
      | none =>
        cases hs : (runCandidates p model_name_candidates).2 with
        | some rr =>
          rw [run_open_success env p m rr hm hk hg hc hs] at hr
          injection hr with hr
          obtain ⟨s, hsr⟩ := runCandidates_shape p model_name_candidates rr hs
          rw [← hr, hsr]
          exact ⟨Or.inr (pyTake_length_le _ _), Or.inr (Or.inr ⟨s, rfl⟩),
            friendly_truthy m, echo_truthy m⟩
        | none =>
          rw [run_open_fail env p m hm hk hg hc hs] at hr
          injection hr with hr
          exact hfb _ hr
      | some k =>
        cases k with
        | validation ve =>
          rw [open_configure_validation env p m ve hm hk hg hc] at hr
          simp at hr
        | other =>
          rw [open_configure_other env p m hm hk hg hc] at hr
          injection hr with hr
          exact hfb _ hr
    · rw [Bool.not_eq_true] at hg
      rw [gate_fallback env p m hm (Or.inr hg)] at hr
      injection hr with hr
      exact hfb _ hr
  · rw [Bool.not_eq_true] at hk
    rw [gate_fallback env p m hm (Or.inl hk)] at hr
    injection hr with hr
    exact hfb _ hr

theorem c2_witness :
    pyTruthy (pyStrip "hi") = true ∧
    (_handle_chat ⟨none, none, true⟩ pStub (RawMessage.str "hi")).2
      = ChatResult.ok (_friendly_fallback "hi") ∧
    ((_friendly_fallback "hi" = "Echo: " ++ pyStrip "hi" ∨
        (_friendly_fallback "hi").length ≤ 2000) ∧
      (_friendly_fallback "hi" = _friendly_fallback "hi" ∨
        _friendly_fallback "hi" = "Echo: " ++ pyStrip "hi" ∨
        ∃ s, _friendly_fallback "hi" = pyTake (pyStrip s) 2000) ∧
      pyTruthy (_friendly_fallback "hi") = true ∧
      pyTruthy ("Echo: " ++ pyStrip "hi") = true) :=
  ⟨by decide, by decide,
    c2_amended_reply_shape ⟨none, none, true⟩ pStub "hi" (_friendly_fallback "hi")
      (by decide) (by decide)⟩

end GeminiChat
